import Mathlib

/-!
Verification of the query orchestrator in `app.py` (Biodiversity Data Chat).

Python strings are embedded as `List Char`.  Each definition carries a
reference to the source line it translates.
-/

namespace BioChat

/-- The backtick character (U+0060). -/
def bq : Char := Char.ofNat 96

/-- The single-quote character (U+0027). -/
def sq : Char := Char.ofNat 39

/-- Opening curly brace (U+007B). -/
def obr : Char := Char.ofNat 123

/-- Closing curly brace (U+007D). -/
def cbr : Char := Char.ofNat 125

/-- Whitespace as stripped by Python `str.strip()` (ASCII part:
space, tab, newline, carriage return, vertical tab, form feed). -/
def isPySpace (c : Char) : Bool :=
  c = ' ' || c = Char.ofNat 9 || c = Char.ofNat 10 || c = Char.ofNat 13 ||
    c = Char.ofNat 11 || c = Char.ofNat 12

/-- Python `s.strip()`: drop leading and trailing whitespace
(`app.py` lines 101-102). -/
def pyStrip (s : List Char) : List Char :=
  List.rdropWhile isPySpace (List.dropWhile isPySpace s)

/-- Python `s.replace("```sql", "")` (`app.py` line 102): left-to-right scan
removing each non-overlapping occurrence of the six-character pattern. -/
def removeSqlFence : List Char → List Char
  | c1 :: c2 :: c3 :: c4 :: c5 :: c6 :: rest =>
    if c1 = bq ∧ c2 = bq ∧ c3 = bq ∧ c4 = 's' ∧ c5 = 'q' ∧ c6 = 'l' then
      removeSqlFence rest
    else
      c1 :: removeSqlFence (c2 :: c3 :: c4 :: c5 :: c6 :: rest)
  | l => l

/-- Python `s.replace("```", "")` (`app.py` line 102): left-to-right scan
removing each non-overlapping occurrence of three backticks. -/
def removeFence : List Char → List Char
  | c1 :: c2 :: c3 :: rest =>
    if c1 = bq ∧ c2 = bq ∧ c3 = bq then
      removeFence rest
    else
      c1 :: removeFence (c2 :: c3 :: rest)
  | l => l

/-- The SQL-cleaning step, `app.py` lines 101-102:
`content.strip().replace("```sql", "").replace("```", "").strip()`. -/
def cleanSql (raw : List Char) : List Char :=
  pyStrip (removeFence (removeSqlFence (pyStrip raw)))

/-- Python `', '.join(xs)` (`app.py` line 84). -/
def joinComma : List (List Char) → List Char
  | [] => []
  | [x] => x
  | x :: y :: rest => x ++ (", ".toList) ++ joinComma (y :: rest)

/-- Python `repr` of a plain string (no quote/backslash/control characters),
as it appears inside the `str()` of a dict: single quotes around the text. -/
def pyStrRepr (s : List Char) : List Char :=
  sq :: (s ++ [sq])

/-- The value associated to key `k` by the LAST matching pair of the list
(later duplicate keys overwrite earlier values in a Python dict). -/
def lastAssoc (k : List Char) : List (List Char × List Char) → Option (List Char)
  | [] => none
  | p :: rest =>
    match lastAssoc k rest with
    | some v => some v
    | none => if p.1 = k then some p.2 else none

/-- Python dict built by the comprehension on `app.py` line 54: keys keep
their first-occurrence order, each key maps to its last value. -/
def pyDict : List (List Char × List Char) → List (List Char × List Char)
  | [] => []
  | p :: rest =>
    (p.1, (lastAssoc p.1 rest).getD p.2) ::
      (pyDict rest).filter (fun q => decide (¬ q.1 = p.1))

/-- Python `str()` of a string-to-string dict, as interpolated by the
f-string `{column_types}` on `app.py` line 85. -/
def dictRepr (ps : List (List Char × List Char)) : List Char :=
  obr :: (joinComma (ps.map fun p => pyStrRepr p.1 ++ (": ".toList) ++ pyStrRepr p.2)
    ++ [cbr])

/-- A chat message, as in `messages=[{"role": "user", "content": prompt}]`
(`app.py` lines 96 and 131). -/
structure ChatMessage where
  role : List Char
  content : List Char
deriving DecidableEq

/-- A request to `client.chat.completions.create`
(`app.py` lines 94-98 and 129-133). -/
structure ChatRequest where
  model : List Char
  messages : List ChatMessage
  temperature : Nat
deriving DecidableEq

/-- The materialized query result (`df = query_job.to_dataframe()`,
`app.py` line 108): named columns and rows of cells. -/
structure DataFrame where
  colNames : List (List Char)
  rows : List (List (List Char))
deriving DecidableEq

/-- Python `df.head(n)` (`app.py` line 120): the first `n` rows. -/
def DataFrame.head (df : DataFrame) (n : Nat) : DataFrame :=
  ⟨df.colNames, df.rows.take n⟩

/-- External collaborators: the LLM (which may raise), the warehouse query
(which may raise), and pandas `DataFrame.to_string` rendering. -/
structure Env where
  llm : ChatRequest → Except (List Char) (List Char)
  runQuery : List Char → Except (List Char) DataFrame
  dfToString : DataFrame → List Char

/-- Observable actions of one question/answer cycle, in program order. -/
inductive Event where
  /-- Streamlit `st.write` (`app.py` lines 71 and 137). -/
  | writeText (s : List Char)
  /-- The SQL-generation LLM call (`app.py` lines 94-98). -/
  | genCall (req : ChatRequest)
  /-- Streamlit `st.code(sql_code, language="sql")` (`app.py` line 103). -/
  | codeBlock (s : List Char)
  /-- Warehouse call `bq_client.query(sql_code)` + `to_dataframe()` (`app.py` lines 107-108). -/
  | queryCall (sql : List Char)
  /-- Streamlit `st.subheader` (`app.py` lines 111 and 136). -/
  | subheader (s : List Char)
  /-- Streamlit `st.warning` (`app.py` line 113). -/
  | warn (s : List Char)
  /-- Streamlit `st.dataframe(df)` (`app.py` line 115). -/
  | showDf (df : DataFrame)
  /-- The summarization LLM call (`app.py` lines 129-133). -/
  | sumCall (req : ChatRequest)
  /-- Streamlit `st.error` (`app.py` line 140). -/
  | errorMsg (s : List Char)
deriving DecidableEq

/-- Whether the cycle finished normally or an exception escaped the script. -/
inductive Outcome where
  | done
  | uncaught (e : List Char)
deriving DecidableEq

def Event.isGen : Event → Bool
  | .genCall _ => true
  | _ => false

def Event.isSum : Event → Bool
  | .sumCall _ => true
  | _ => false

def Event.isQuery : Event → Bool
  | .queryCall _ => true
  | _ => false

/-- The SQL-generation prompt `sql_prompt` (`app.py` lines 74-92): the
f-string template with `', '.join(columns)`, `{column_types}` and the
question spliced in. -/
def sqlPromptStr (schema : List (List Char × List Char)) (question : List Char) :
    List Char :=
  ("\nYou are a data assistant. \nThe user will ask a question about biodiversity data in BigQuery. \n\n⚠️ Rules for writing SQL:\n- Only return a valid BigQuery STANDARD SQL query.\n- When casting values to INT64, always use SAFE_CAST instead of CAST to avoid errors on bad values like #N/A.\n- Return ONLY the query — no explanations, no comments, no Markdown.\n- Do NOT use triple backticks (```).\n- Always query this table exactly as written: `biodiversitychat.biodiversity.biodiversitychat_native`\n- Only use these exact columns: ").toList
  ++ joinComma (schema.map Prod.fst)
  ++ ("\n- Column data types: ").toList
  ++ dictRepr (pyDict schema)
  ++ ("\n- When filtering, always match the correct type:\n   • If the column is INT64, do NOT wrap the value in quotes.\n   • If the column is STRING, wrap the value in single quotes.\n- If the user asks about workshops, include BOTH the total number of workshops AND the workshop topics in the SQL output if columns like workshop1_topic, workshop2_topic, etc. exist.\n\nUser question: ").toList
  ++ question
  ++ ("\n    ").toList

/-- The summarization prompt `summary_prompt` (`app.py` lines 118-127),
embedding `df.head(10).to_string()`. -/
def summaryPromptStr (env : Env) (df : DataFrame) : List Char :=
  ("\nHere is the SQL query result:\n").toList
  ++ env.dfToString (df.head 10)
  ++ ("\n\nPlease write a clear, human-friendly summary:\n- State the total number of workshops if available.\n- List the workshop topics (if present and not null).\n- If there are no workshops or topics, say that clearly.\n- Keep it short and professional.\n").toList

/-- The SQL-generation request (`app.py` lines 94-98). -/
def genRequest (schema : List (List Char × List Char)) (question : List Char) :
    ChatRequest :=
  ⟨("gpt-4o").toList, [⟨("user").toList, sqlPromptStr schema question⟩], 0⟩

/-- The summarization request (`app.py` lines 129-133). -/
def sumRequest (env : Env) (df : DataFrame) : ChatRequest :=
  ⟨("gpt-4o").toList, [⟨("user").toList, summaryPromptStr env df⟩], 0⟩

/-- Text of the `st.error` message (`app.py` line 140). -/
def errStr (e : List Char) : List Char :=
  ("❌ There was an error running the query: ").toList ++ e

/-- Text of the `st.warning` notice (`app.py` line 113). -/
def noDataStr : List Char := ("⚠️ The query returned no data.").toList

/-- One question/answer cycle, `app.py` lines 70-140.  The gate is
`if st.button("Ask") and question:` — Python truthiness of the string,
i.e. the question is not empty.  The `try` of line 106 spans query
execution, rendering and the summarization call; `st.error` reports any
exception raised inside it.  A failure of the generation call (line 94)
is outside the `try` and escapes the script. -/
def runCycle (env : Env) (schema : List (List Char × List Char))
    (pressed : Bool) (question : List Char) : List Event × Outcome :=
  if pressed && !question.isEmpty then
    let echo := Event.writeText (("**Your question:** ").toList ++ question)
    let req := genRequest schema question
    match env.llm req with
    | .error e => ([echo, .genCall req], .uncaught e)
    | .ok raw =>
      let sql := cleanSql raw
      let pre := [echo, .genCall req, .codeBlock sql, .queryCall sql]
      match env.runQuery sql with
      | .error e => (pre ++ [.errorMsg (errStr e)], .done)
      | .ok df =>
        if df.rows.isEmpty then
          (pre ++ [.subheader (("📊 Query Results").toList), .warn noDataStr], .done)
        else
          let sreq := sumRequest env df
          match env.llm sreq with
          | .error e =>
            (pre ++ [.subheader (("📊 Query Results").toList), .showDf df,
              .sumCall sreq, .errorMsg (errStr e)], .done)
          | .ok summary =>
            (pre ++ [.subheader (("📊 Query Results").toList), .showDf df,
              .sumCall sreq, .subheader (("📝 Summary").toList),
              .writeText summary], .done)
  else ([], .done)


/-- The markdown code-fence marker: three backticks. -/
def fence : List Char := [bq, bq, bq]

instance exceptDecEq {ε α : Type} [DecidableEq ε] [DecidableEq α] :
    DecidableEq (Except ε α)
  | Except.ok a, Except.ok b => decidable_of_iff (a = b) (by simp)
  | Except.ok _, Except.error _ => Decidable.isFalse (by simp)
  | Except.error _, Except.ok _ => Decidable.isFalse (by simp)
  | Except.error e1, Except.error e2 => decidable_of_iff (e1 = e2) (by simp)

/-- The schema of the spec's end-to-end scenario (two workshop columns). -/
def schemaW : List (List Char × List Char) :=
  [(("workshop1_topic").toList, ("STRING").toList),
   (("workshop_count").toList, ("INT64").toList)]

/-- A one-row result table. -/
def dfOne : DataFrame := ⟨[("workshop_count").toList], [[("3").toList]]⟩

/-- A zero-row result table. -/
def dfNone : DataFrame := ⟨[("workshop_count").toList], []⟩

/-- Stub collaborators: the LLM always answers `resp`, the warehouse always
returns `qres`, rows render as comma-joined cells. -/
def stubEnv (resp : List Char) (qres : Except (List Char) DataFrame) : Env :=
  ⟨fun _ => Except.ok resp, fun _ => qres,
   fun df => joinComma (df.rows.map joinComma)⟩

/-- The question string used by the concrete witnesses. -/
def qQ : List Char := ("q").toList

/-- An environment whose LLM succeeds on the generation request but raises
on any other request (in particular on the summarization request). -/
def envSumFail : Env :=
  ⟨fun r => if r = genRequest schemaW qQ then Except.ok (("SELECT 1").toList)
    else Except.error (("boom").toList),
   fun _ => Except.ok dfOne,
   fun df => joinComma (df.rows.map joinComma)⟩

/-- An 11-row result table. -/
def dfEleven : DataFrame :=
  ⟨[("c").toList], List.replicate 10 [("r").toList] ++ [[("x").toList]]⟩

/-- Same first 10 rows as `dfEleven`, different 11th row. -/
def dfEleven2 : DataFrame :=
  ⟨[("c").toList], List.replicate 10 [("r").toList] ++ [[("y").toList]]⟩

theorem removeFence_cons_ne (c : Char) (cs : List Char) (hc : ¬ c = bq) :
    removeFence (c :: cs) = c :: removeFence cs := by
  match cs with
  | [] => rfl
  | [c2] => rfl
  | c2 :: c3 :: rest => simp [removeFence, hc]

theorem not_two_bq_prefix (c2 c3 : Char) (rest : List Char)
    (h : ¬ (c2 = bq ∧ c3 = bq)) :
    ¬ ([bq, bq] <+: removeFence (c2 :: c3 :: rest)) := by
  intro hp
  by_cases h2 : c2 = bq
  · have h3 : ¬ c3 = bq := fun hh => h ⟨h2, hh⟩
    subst h2
    match rest with
    | [] =>
      have e : removeFence [bq, c3] = [bq, c3] := rfl
      rw [e, List.cons_prefix_cons, List.cons_prefix_cons] at hp
      exact h3 hp.2.1.symm
    | r1 :: rest' =>
      have e1 : removeFence (bq :: c3 :: r1 :: rest') =
          bq :: removeFence (c3 :: r1 :: rest') := by
        simp [removeFence, h3]
      rw [e1, removeFence_cons_ne c3 _ h3, List.cons_prefix_cons,
        List.cons_prefix_cons] at hp
      exact h3 hp.2.1.symm
  · rw [removeFence_cons_ne c2 _ h2, List.cons_prefix_cons] at hp
    exact h2 hp.1.symm

theorem removeFence_no_fence : ∀ l : List Char, ¬ (fence <:+: removeFence l) := by
  intro l
  induction l using removeFence.induct with
  | case1 c1 c2 c3 rest hcond ih =>
    have e : removeFence (c1 :: c2 :: c3 :: rest) = removeFence rest := by
      simp [removeFence, hcond]
    rw [e]; exact ih
  | case2 c1 c2 c3 rest hcond ih =>
    have e : removeFence (c1 :: c2 :: c3 :: rest) =
        c1 :: removeFence (c2 :: c3 :: rest) := by
      simp [removeFence, hcond]
    rw [e]
    intro hi
    rcases List.infix_cons_iff.mp hi with hp | hi2
    · rw [show fence = bq :: [bq, bq] from rfl, List.cons_prefix_cons] at hp
      rcases hp with ⟨hc1, hp2⟩
      have h23 : ¬ (c2 = bq ∧ c3 = bq) := fun hh => hcond ⟨hc1.symm, hh.1, hh.2⟩
      exact not_two_bq_prefix c2 c3 rest h23 hp2
    · exact ih hi2
  | case3 l hshape =>
    match l, hshape with
    | [], _ =>
      intro hi
      have e : removeFence [] = [] := rfl
      rw [e] at hi
      have h3 := hi.length_le; simp [fence] at h3
    | [c], _ =>
      intro hi
      have e : removeFence [c] = [c] := rfl
      rw [e] at hi
      have h3 := hi.length_le; simp [fence] at h3
    | [c, d], _ =>
      intro hi
      have e : removeFence [c, d] = [c, d] := rfl
      rw [e] at hi
      have h3 := hi.length_le; simp [fence] at h3
    | c1 :: c2 :: c3 :: rest, hs => exact absurd rfl (hs c1 c2 c3 rest)

theorem removeFence_eq_self (l : List Char) (h : ¬ (fence <:+: l)) :
    removeFence l = l := by
  induction l using removeFence.induct with
  | case1 c1 c2 c3 rest hcond ih =>
    exfalso
    rcases hcond with ⟨h1, h2, h3⟩
    subst h1; subst h2; subst h3
    exact h ⟨[], rest, by simp [fence]⟩
  | case2 c1 c2 c3 rest hcond ih =>
    have h' : ¬ (fence <:+: c2 :: c3 :: rest) :=
      fun hi => h (List.infix_cons_iff.mpr (Or.inr hi))
    simp [removeFence, hcond, ih h']
  | case3 l hshape =>
    match l, hshape with
    | [], _ => rfl
    | [c], _ => rfl
    | [c, d], _ => rfl
    | c1 :: c2 :: c3 :: rest, hs => exact absurd rfl (hs c1 c2 c3 rest)

theorem removeSqlFence_eq_self (l : List Char) (h : ¬ (fence <:+: l)) :
    removeSqlFence l = l := by
  induction l using removeSqlFence.induct with
  | case1 c1 c2 c3 c4 c5 c6 rest hcond ih =>
    exfalso
    obtain ⟨h1, h2, h3, h4, h5, h6⟩ := hcond
    subst h1; subst h2; subst h3; subst h4; subst h5; subst h6
    exact h ⟨[], 's' :: 'q' :: 'l' :: rest, by simp [fence]⟩
  | case2 c1 c2 c3 c4 c5 c6 rest hcond ih =>
    have h' : ¬ (fence <:+: c2 :: c3 :: c4 :: c5 :: c6 :: rest) :=
      fun hi => h (List.infix_cons_iff.mpr (Or.inr hi))
    simp [removeSqlFence, hcond, ih h']
  | case3 l hshape =>
    match l, hshape with
    | [], _ => rfl
    | [a], _ => rfl
    | [a, b], _ => rfl
    | [a, b, c], _ => rfl
    | [a, b, c, d], _ => rfl
    | [a, b, c, d, e], _ => rfl
    | a :: b :: c :: d :: e :: f :: rest, hs => exact absurd rfl (hs a b c d e f rest)


theorem dropWhile_rdropWhile_dropWhile (p : Char → Bool) (l : List Char) :
    List.dropWhile p (List.rdropWhile p (List.dropWhile p l)) =
      List.rdropWhile p (List.dropWhile p l) := by
  rw [List.dropWhile_eq_self_iff]
  intro hl
  have hpref := List.rdropWhile_prefix p (List.dropWhile p l)
  have hlen : 0 < (List.dropWhile p l).length :=
    lt_of_lt_of_le hl hpref.length_le
  have hg : (List.rdropWhile p (List.dropWhile p l)).get ⟨0, hl⟩ =
      (List.dropWhile p l).get ⟨0, hlen⟩ := by
    have h0 := hpref.getElem (n := 0) hl
    simpa [List.get_eq_getElem] using h0
  rw [hg]
  exact List.dropWhile_get_zero_not p l hlen

theorem pyStrip_idem (l : List Char) : pyStrip (pyStrip l) = pyStrip l := by
  unfold pyStrip
  rw [dropWhile_rdropWhile_dropWhile, List.rdropWhile_idempotent]

theorem pyStrip_isInfix (l : List Char) : pyStrip l <:+: l :=
  ((List.rdropWhile_prefix _ _).isInfix).trans ((List.dropWhile_suffix _).isInfix)

theorem cleanSql_no_fence (raw : List Char) : ¬ (fence <:+: cleanSql raw) := by
  intro hi
  simp only [cleanSql] at hi
  exact removeFence_no_fence (removeSqlFence (pyStrip raw))
    (hi.trans (pyStrip_isInfix _))

theorem pyStrip_cleanSql (raw : List Char) : pyStrip (cleanSql raw) = cleanSql raw := by
  simp only [cleanSql]
  exact pyStrip_idem _

theorem cleanSql_eq_self (raw : List Char) (hf : ¬ (fence <:+: raw))
    (hs : pyStrip raw = raw) : cleanSql raw = raw := by
  simp only [cleanSql, hs, removeSqlFence_eq_self raw hf, removeFence_eq_self raw hf]

theorem cleanSql_idem (raw : List Char) : cleanSql (cleanSql raw) = cleanSql raw :=
  cleanSql_eq_self _ (cleanSql_no_fence raw) (pyStrip_cleanSql raw)

theorem infix_component {x : List Char} (pre post : List Char) {l : List Char}
    (h : l <:+: x) : l <:+: pre ++ x ++ post :=
  h.trans (List.infix_append pre x post)

theorem mem_infix_joinComma :
    ∀ (xs : List (List Char)) (x : List Char), x ∈ xs → x <:+: joinComma xs := by
  intro xs
  induction xs with
  | nil => intro x hx; exact absurd hx (List.not_mem_nil x)
  | cons y ys ih =>
    intro x hx
    rcases List.mem_cons.mp hx with rfl | h'
    · cases ys with
      | nil => exact List.infix_refl x
      | cons z zs =>
        have h1 : x <:+: x ++ ((", ").toList ++ joinComma (z :: zs)) :=
          (List.prefix_append x _).isInfix
        simpa [joinComma, List.append_assoc] using h1
    · cases ys with
      | nil => exact absurd h' (List.not_mem_nil x)
      | cons z zs =>
        have h1 := ih x h'
        have h2 : x <:+: (y ++ (", ").toList) ++ joinComma (z :: zs) :=
          h1.trans (List.suffix_append _ _).isInfix
        simpa [joinComma, List.append_assoc] using h2

theorem lastAssoc_eq_none {k : List Char} :
    ∀ {ps : List (List Char × List Char)},
      k ∉ ps.map Prod.fst → lastAssoc k ps = none := by
  intro ps
  induction ps with
  | nil => intro _; rfl
  | cons p rest ih =>
    intro h
    have hk : ¬ p.1 = k := by
      intro he
      exact h (by simp [he])
    have hrest : k ∉ rest.map Prod.fst := fun hm => h (by simp [hm])
    simp [lastAssoc, ih hrest, hk]

theorem mem_pyDict_fst {q : List Char × List Char} :
    ∀ {ps : List (List Char × List Char)}, q ∈ pyDict ps → q.1 ∈ ps.map Prod.fst := by
  intro ps
  induction ps with
  | nil => intro h; simp [pyDict] at h
  | cons p rest ih =>
    intro h
    simp only [pyDict, List.mem_cons] at h
    rcases h with h | h
    · simp [h]
    · have h2 := ih (List.mem_of_mem_filter h)
      simp [h2]

theorem pyDict_eq_self : ∀ {ps : List (List Char × List Char)},
    (ps.map Prod.fst).Nodup → pyDict ps = ps := by
  intro ps
  induction ps with
  | nil => intro _; rfl
  | cons p rest ih =>
    intro h
    rw [List.map_cons, List.nodup_cons] at h
    have hfilter : (pyDict rest).filter (fun q => decide (¬ q.1 = p.1)) = pyDict rest := by
      rw [List.filter_eq_self]
      intro a ha
      have h2 := mem_pyDict_fst ha
      simp only [decide_eq_true_eq]
      intro he
      exact h.1 (he ▸ h2)
    rw [show pyDict (p :: rest) = (p.1, (lastAssoc p.1 rest).getD p.2) ::
        (pyDict rest).filter (fun q => decide (¬ q.1 = p.1)) from rfl,
      lastAssoc_eq_none h.1, hfilter, ih h.2]
    simp only [Option.getD_none, Prod.mk.eta]

theorem mem_infix_dictRepr {p : List Char × List Char}
    {ps : List (List Char × List Char)} (h : p ∈ ps) :
    (pyStrRepr p.1 ++ ((": ").toList) ++ pyStrRepr p.2) <:+: dictRepr ps := by
  have h1 : (pyStrRepr p.1 ++ ((": ").toList) ++ pyStrRepr p.2) ∈
      ps.map (fun p => pyStrRepr p.1 ++ ((": ").toList) ++ pyStrRepr p.2) :=
    List.mem_map_of_mem _ h
  have h2 := mem_infix_joinComma _ _ h1
  refine h2.trans ?_
  exact ⟨[obr], [cbr], by simp [dictRepr]⟩


theorem infix_app_left {l a : List Char} (h : l <:+: a) (b : List Char) :
    l <:+: a ++ b := h.trans (List.prefix_append a b).isInfix

theorem infix_app_right (a : List Char) {l b : List Char} (h : l <:+: b) :
    l <:+: a ++ b := h.trans (List.suffix_append a b).isInfix

theorem trace_requests (env : Env) (schema : List (List Char × List Char))
    (pressed : Bool) (q : List Char) (req : ChatRequest) :
    (Event.genCall req ∈ (runCycle env schema pressed q).1 →
      req = genRequest schema q) ∧
    (Event.sumCall req ∈ (runCycle env schema pressed q).1 →
      ∃ df, req = sumRequest env df) := by
  unfold runCycle
  by_cases hp : (pressed && !q.isEmpty) = true
  · rw [if_pos hp]
    rcases hg : env.llm (genRequest schema q) with e | raw
    · simp [hg]
    · rcases hr : env.runQuery (cleanSql raw) with e | df
      · simp [hg, hr]
      · by_cases hdf : df.rows.isEmpty
        · simp [hg, hr, hdf]
        · rcases hs : env.llm (sumRequest env df) with e | summ
          · simp [hg, hr, hdf, hs]
            intro h; exact ⟨df, h⟩
          · simp [hg, hr, hdf, hs]
            intro h; exact ⟨df, h⟩
  · simp [hp]


/-- Claim C1 is refuted: for the whitespace-only question consisting of a
single space, the orchestrator does make a SQL-generation call and a
query-execution call, and renders output. -/
theorem c1_whitespace_question_not_filtered :
    ((runCycle (stubEnv (("SELECT 1").toList) (Except.ok dfNone)) schemaW true
      [' ']).1.countP Event.isGen = 1) ∧
    ((runCycle (stubEnv (("SELECT 1").toList) (Except.ok dfNone)) schemaW true
      [' ']).1.countP Event.isQuery = 1) ∧
    ((runCycle (stubEnv (("SELECT 1").toList) (Except.ok dfNone)) schemaW true
      [' ']).1 ≠ []) := by decide

/-- Claim C2: when the generation model returns the fenced text
"three backticks + sql, newline, SELECT 1, newline, three backticks",
the cleaning step yields exactly "SELECT 1", and that string is what is
passed to execution (the `queryCall` event of the trace). -/
theorem c2_fenced_output_cleaned_and_executed :
    cleanSql (("```sql\nSELECT 1\n```").toList) = ("SELECT 1").toList ∧
    Event.queryCall (("SELECT 1").toList) ∈
      (runCycle (stubEnv (("```sql\nSELECT 1\n```").toList) (Except.ok dfNone))
        schemaW true (("q").toList)).1 := by decide


/-- Claim C3: when query execution raises, the orchestrator renders an
error message containing the underlying error text, makes no
summarization call, exactly one generation call and one execution call,
and the cycle ends normally (no retry, no second generation call). -/
theorem c3_exec_error_reported_without_summary (env : Env) (schema : List (List Char × List Char))
    (q raw e : List Char) (hq : q ≠ [])
    (hg : env.llm (genRequest schema q) = Except.ok raw)
    (hr : env.runQuery (cleanSql raw) = Except.error e) :
    (∃ m, Event.errorMsg m ∈ (runCycle env schema true q).1 ∧ e <:+: m) ∧
    (runCycle env schema true q).1.countP Event.isSum = 0 ∧
    (runCycle env schema true q).1.countP Event.isGen = 1 ∧
    (runCycle env schema true q).1.countP Event.isQuery = 1 ∧
    (runCycle env schema true q).2 = Outcome.done := by
  have hq2 : q.isEmpty = false := by
    cases q with
    | nil => exact absurd rfl hq
    | cons a l => rfl
  refine ⟨⟨errStr e, ?_, ?_⟩, ?_, ?_, ?_, ?_⟩
  · simp [runCycle, hq2, hg, hr]
  · exact (List.suffix_append _ _).isInfix
  · simp [runCycle, hq2, hg, hr, List.countP_cons, Event.isSum]
  · simp [runCycle, hq2, hg, hr, List.countP_cons, Event.isGen, Event.isSum]
  · simp [runCycle, hq2, hg, hr, List.countP_cons, Event.isQuery]
  · simp [runCycle, hq2, hg, hr]


/-- Claim C4 (amended): a summarization-call failure is caught by the
try/except that wraps query execution (`app.py` lines 106-140) and is
reported through the same `st.error` message; it does not propagate out
of the cycle. -/
theorem c4_summary_failure_caught_by_query_handler (env : Env) (schema : List (List Char × List Char))
    (q raw e : List Char) (df : DataFrame) (hq : q ≠ [])
    (hg : env.llm (genRequest schema q) = Except.ok raw)
    (hr : env.runQuery (cleanSql raw) = Except.ok df)
    (hdf : df.rows ≠ [])
    (hs : env.llm (sumRequest env df) = Except.error e) :
    (runCycle env schema true q).2 = Outcome.done ∧
    Event.sumCall (sumRequest env df) ∈ (runCycle env schema true q).1 ∧
    Event.errorMsg (errStr e) ∈ (runCycle env schema true q).1 := by
  have hq2 : q.isEmpty = false := by
    cases q with
    | nil => exact absurd rfl hq
    | cons a l => rfl
  have hdf2 : df.rows.isEmpty = false := by
    cases hx : df.rows with
    | nil => exact absurd hx hdf
    | cons a l => rfl
  refine ⟨?_, ?_, ?_⟩ <;> simp [runCycle, hq2, hg, hr, hdf2, hs]

/-- Claim C5: for a zero-row result the orchestrator renders the "no
data" warning (an informational notice, distinct from the error event),
makes no summarization call, renders no summary, and the only text
written is the question echo. -/
theorem c5_empty_result_notice_without_summary (env : Env) (schema : List (List Char × List Char))
    (q raw : List Char) (df : DataFrame) (hq : q ≠ [])
    (hg : env.llm (genRequest schema q) = Except.ok raw)
    (hr : env.runQuery (cleanSql raw) = Except.ok df)
    (hdf : df.rows = []) :
    Event.warn noDataStr ∈ (runCycle env schema true q).1 ∧
    (runCycle env schema true q).1.countP Event.isSum = 0 ∧
    (∀ m, Event.errorMsg m ∉ (runCycle env schema true q).1) ∧
    (∀ s, Event.writeText s ∈ (runCycle env schema true q).1 →
      s = ("**Your question:** ").toList ++ q) ∧
    Event.subheader (("📝 Summary").toList) ∉ (runCycle env schema true q).1 ∧
    (runCycle env schema true q).2 = Outcome.done := by
  have hq2 : q.isEmpty = false := by
    cases q with
    | nil => exact absurd rfl hq
    | cons a l => rfl
  have hdf2 : df.rows.isEmpty = true := by rw [hdf]; rfl
  refine ⟨?_, ?_, ?_, ?_, ?_, ?_⟩ <;>
    simp [runCycle, hq2, hg, hr, hdf2, List.countP_cons, Event.isSum, noDataStr]


/-- Claim C1 (amended): only for the empty question string does the
orchestrator make no generation call, no execution call and no
summarization call and render nothing; the gate uses Python truthiness
of the string, which filters only the empty string, so whitespace-only
questions proceed. -/
theorem c1_empty_question_no_action (env : Env) (schema : List (List Char × List Char))
    (pressed : Bool) :
    runCycle env schema pressed [] = ([], Outcome.done) := by
  simp [runCycle]

/-- Claim C6: for any question and any schema with distinct column names,
the generation prompt literally contains every column name and its
repr-quoted name/type entry of the column-types dict; no column is
omitted. -/
theorem c6_prompt_lists_every_column_and_type (schema : List (List Char × List Char)) (q : List Char)
    (hnd : (schema.map Prod.fst).Nodup) :
    ∀ p ∈ schema,
      (p.1 <:+: sqlPromptStr schema q) ∧
      ((pyStrRepr p.1 ++ ((": ").toList) ++ pyStrRepr p.2) <:+: sqlPromptStr schema q) := by
  intro p hp
  constructor
  · have h1 := mem_infix_joinComma (schema.map Prod.fst) p.1
      (List.mem_map_of_mem Prod.fst hp)
    simp only [sqlPromptStr]
    exact infix_app_left (infix_app_left (infix_app_left (infix_app_left
      (infix_app_left (infix_app_right _ h1) _) _) _) _) _
  · have h1 := mem_infix_dictRepr (pyDict_eq_self hnd ▸ hp)
    simp only [sqlPromptStr]
    exact infix_app_left (infix_app_left (infix_app_left
      (infix_app_right _ h1) _) _) _

/-- Claim C7: the SQL-cleaning step is idempotent — already-clean text
(no triple-backtick fence, no leading or trailing whitespace) is
returned unchanged, and cleaning twice equals cleaning once. -/
theorem c7_clean_sql_idempotent :
    (∀ raw : List Char, ¬ (fence <:+: raw) → pyStrip raw = raw →
      cleanSql raw = raw) ∧
    (∀ raw : List Char, cleanSql (cleanSql raw) = cleanSql raw) :=
  ⟨fun raw hf hs => cleanSql_eq_self raw hf hs, cleanSql_idem⟩

/-- Claim C10: for every raw model output, the cleaned SQL contains no
occurrence of three consecutive backticks anywhere, and stripping it
again is the identity (no leading or trailing whitespace). -/
theorem c10_clean_sql_fence_free_and_trimmed (raw : List Char) :
    ¬ (fence <:+: cleanSql raw) ∧ pyStrip (cleanSql raw) = cleanSql raw :=
  ⟨cleanSql_no_fence raw, pyStrip_cleanSql raw⟩

/-- Claim C8: the summarization prompt embeds the plain-text rendering of
the first at most 10 rows (`df.head(10).to_string()`), depends only on
those rows (rows beyond the tenth never appear), and every summarization
request of a trace is built from such a prompt. -/
theorem c8_summary_prompt_first_ten_rows :
    (∀ (env : Env) (df : DataFrame),
      env.dfToString (df.head 10) <:+: summaryPromptStr env df) ∧
    (∀ (env : Env) (df df2 : DataFrame), df.head 10 = df2.head 10 →
      summaryPromptStr env df = summaryPromptStr env df2) ∧
    (∀ (env : Env) (schema : List (List Char × List Char)) (q : List Char)
      (req : ChatRequest),
      Event.sumCall req ∈ (runCycle env schema true q).1 →
      ∃ df, req = sumRequest env df) := by
  refine ⟨?_, ?_, ?_⟩
  · intro env df
    simp only [summaryPromptStr]
    exact infix_app_left (infix_app_right _ (List.infix_refl _)) _
  · intro env df df2 h
    simp only [summaryPromptStr, h]
  · intro env schema q req h
    exact (trace_requests env schema true q req).2 h

/-- Claim C9: every LLM request issued by the orchestrator (generation
and summarization) has temperature 0 and exactly one single-turn user
message, with no conversation history. -/
theorem c9_llm_calls_temperature_zero_single_turn (env : Env) (schema : List (List Char × List Char))
    (pressed : Bool) (q : List Char) (req : ChatRequest)
    (h : Event.genCall req ∈ (runCycle env schema pressed q).1 ∨
      Event.sumCall req ∈ (runCycle env schema pressed q).1) :
    req.temperature = 0 ∧ req.model = ("gpt-4o").toList ∧
    ∃ c, req.messages = [⟨("user").toList, c⟩] := by
  rcases h with h | h
  · have he := (trace_requests env schema pressed q req).1 h
    subst he
    exact ⟨rfl, rfl, sqlPromptStr schema q, rfl⟩
  · obtain ⟨df, he⟩ := (trace_requests env schema pressed q req).2 h
    subst he
    exact ⟨rfl, rfl, summaryPromptStr env df, rfl⟩


/-- Witness for claim C3 at a concrete stub environment whose warehouse
raises with text "boom". -/
theorem c3_exec_error_reported_without_summary_witness :
    (∃ m, Event.errorMsg m ∈ (runCycle (stubEnv (("SELECT 1").toList)
        (Except.error (("boom").toList))) schemaW true qQ).1 ∧
      ("boom").toList <:+: m) ∧
    (runCycle (stubEnv (("SELECT 1").toList) (Except.error (("boom").toList)))
      schemaW true qQ).1.countP Event.isSum = 0 ∧
    (runCycle (stubEnv (("SELECT 1").toList) (Except.error (("boom").toList)))
      schemaW true qQ).1.countP Event.isGen = 1 ∧
    (runCycle (stubEnv (("SELECT 1").toList) (Except.error (("boom").toList)))
      schemaW true qQ).1.countP Event.isQuery = 1 ∧
    (runCycle (stubEnv (("SELECT 1").toList) (Except.error (("boom").toList)))
      schemaW true qQ).2 = Outcome.done :=
  c3_exec_error_reported_without_summary _ schemaW qQ (("SELECT 1").toList) (("boom").toList)
    (by decide) rfl rfl

set_option maxRecDepth 100000 in
/-- Claim C4 is refuted: with an LLM stub whose summarization call raises,
the exception does not propagate out of the cycle (the outcome is `done`,
not `uncaught`) and the query-execution error handler renders the error
message. -/
theorem c4_summary_failure_handled_not_propagated :
    (runCycle envSumFail schemaW true qQ).2 = Outcome.done ∧
    ¬ ((runCycle envSumFail schemaW true qQ).2 =
      Outcome.uncaught (("boom").toList)) ∧
    Event.errorMsg (errStr (("boom").toList)) ∈
      (runCycle envSumFail schemaW true qQ).1 := by decide

set_option maxRecDepth 100000 in
/-- Witness for the amended claim C4 at a concrete environment whose LLM
raises exactly on the summarization request. -/
theorem c4_summary_failure_caught_by_query_handler_witness :
    (runCycle envSumFail schemaW true qQ).2 = Outcome.done ∧
    Event.sumCall (sumRequest envSumFail dfOne) ∈
      (runCycle envSumFail schemaW true qQ).1 ∧
    Event.errorMsg (errStr (("boom").toList)) ∈
      (runCycle envSumFail schemaW true qQ).1 :=
  c4_summary_failure_caught_by_query_handler envSumFail schemaW qQ (("SELECT 1").toList) (("boom").toList) dfOne
    (by decide) (by decide) (by decide) (by decide) (by decide)

/-- Witness for claim C5 at a concrete stub environment whose warehouse
returns a zero-row table. -/
theorem c5_empty_result_notice_without_summary_witness :
    Event.warn noDataStr ∈ (runCycle (stubEnv (("SELECT 1").toList)
      (Except.ok dfNone)) schemaW true qQ).1 ∧
    (runCycle (stubEnv (("SELECT 1").toList) (Except.ok dfNone)) schemaW true
      qQ).1.countP Event.isSum = 0 ∧
    (∀ m, Event.errorMsg m ∉ (runCycle (stubEnv (("SELECT 1").toList)
      (Except.ok dfNone)) schemaW true qQ).1) ∧
    (∀ s, Event.writeText s ∈ (runCycle (stubEnv (("SELECT 1").toList)
      (Except.ok dfNone)) schemaW true qQ).1 →
      s = ("**Your question:** ").toList ++ qQ) ∧
    Event.subheader (("📝 Summary").toList) ∉ (runCycle (stubEnv
      (("SELECT 1").toList) (Except.ok dfNone)) schemaW true qQ).1 ∧
    (runCycle (stubEnv (("SELECT 1").toList) (Except.ok dfNone)) schemaW true
      qQ).2 = Outcome.done :=
  c5_empty_result_notice_without_summary _ schemaW qQ (("SELECT 1").toList) dfNone (by decide) rfl rfl rfl

/-- Witness for claim C6 at the spec's two-column workshop schema. -/
theorem c6_prompt_lists_every_column_and_type_witness :
    ((("workshop1_topic").toList <:+: sqlPromptStr schemaW qQ) ∧
      ((pyStrRepr (("workshop1_topic").toList) ++ ((": ").toList) ++
        pyStrRepr (("STRING").toList)) <:+: sqlPromptStr schemaW qQ)) ∧
    ((("workshop_count").toList <:+: sqlPromptStr schemaW qQ) ∧
      ((pyStrRepr (("workshop_count").toList) ++ ((": ").toList) ++
        pyStrRepr (("INT64").toList)) <:+: sqlPromptStr schemaW qQ)) :=
  ⟨c6_prompt_lists_every_column_and_type schemaW qQ (by decide) ((("workshop1_topic").toList, ("STRING").toList))
      (by decide),
   c6_prompt_lists_every_column_and_type schemaW qQ (by decide) ((("workshop_count").toList, ("INT64").toList))
      (by decide)⟩

/-- Witness for claim C7: a fenceless model output is passed on
unmodified. -/
theorem c7_clean_sql_idempotent_witness :
    cleanSql (("SELECT workshop_count FROM t").toList) =
      ("SELECT workshop_count FROM t").toList :=
  c7_clean_sql_idempotent.1 (("SELECT workshop_count FROM t").toList) (by decide) (by decide)

set_option maxRecDepth 100000 in
/-- Witness for claim C8: two 11-row tables agreeing on their first 10
rows yield the same summarization prompt. -/
theorem c8_summary_prompt_first_ten_rows_witness :
    ((stubEnv (("SELECT 1").toList) (Except.ok dfOne)).dfToString
      (dfEleven.head 10) <:+:
      summaryPromptStr (stubEnv (("SELECT 1").toList) (Except.ok dfOne)) dfEleven) ∧
    (summaryPromptStr (stubEnv (("SELECT 1").toList) (Except.ok dfOne)) dfEleven =
      summaryPromptStr (stubEnv (("SELECT 1").toList) (Except.ok dfOne)) dfEleven2) ∧
    (∃ df, sumRequest (stubEnv (("SELECT 1").toList) (Except.ok dfOne)) dfOne =
      sumRequest (stubEnv (("SELECT 1").toList) (Except.ok dfOne)) df) :=
  ⟨c8_summary_prompt_first_ten_rows.1 _ dfEleven,
   c8_summary_prompt_first_ten_rows.2.1 _ dfEleven dfEleven2 (by decide),
   c8_summary_prompt_first_ten_rows.2.2 _ schemaW qQ _ (by decide)⟩

set_option maxRecDepth 100000 in
/-- Witness for claim C9 at the generation request of a concrete run. -/
theorem c9_llm_calls_temperature_zero_single_turn_witness :
    (genRequest schemaW qQ).temperature = 0 ∧
    (genRequest schemaW qQ).model = ("gpt-4o").toList ∧
    ∃ c, (genRequest schemaW qQ).messages = [⟨("user").toList, c⟩] :=
  c9_llm_calls_temperature_zero_single_turn (stubEnv (("SELECT 1").toList) (Except.ok dfOne)) schemaW true qQ
    (genRequest schemaW qQ) (Or.inl (by decide))

end BioChat
